import Mathlib

/-!
Shallow embedding of the City_Plotting repository
(`City_Plotting/Plot.py` and `City_Plotting/gui_plot.py`).

Python strings that undergo case conversion (road classification tags,
city names, country names, user input) are modeled as lists of Unicode
code points (`PyStr`); `pyStr` converts a Lean string literal to that
form.  Case conversion is modeled for the ASCII range, which covers every
constant appearing in the source.  Python float literals that are only
passed through (line widths, sizes) are modeled as the exact rational
numbers they denote; no floating-point arithmetic is performed on them in
the source.  External collaborators (osmnx, geopandas, matplotlib,
customtkinter) are modeled through their observable contracts: the data
provider is a parameter supplying fetched collections, the matplotlib
axes object is a list of accumulated draw operations, and rasterization
(`export_image`) paints operations in ascending z-order (stable for equal
z-orders), which is the matplotlib stacking contract.
-/

namespace CityPlotting

/-! ### Python string primitives (code-point model, ASCII case rules) -/

/-- Python strings as lists of Unicode code points. -/
abbrev PyStr := List Nat

/-- Conversion of a Lean string literal to its code-point list. -/
def pyStr (s : String) : PyStr := s.toList.map Char.toNat

/-- Lower-casing of one code point (ASCII range, as used by the source
constants). -/
def lowerCode (n : Nat) : Nat := if 65 ≤ n ∧ n ≤ 90 then n + 32 else n

/-- Upper-casing of one code point (ASCII range). -/
def upperCode (n : Nat) : Nat := if 97 ≤ n ∧ n ≤ 122 then n - 32 else n

/-- Models Python str.lower. -/
def strLower (s : PyStr) : PyStr := s.map lowerCode

/-- Models Python str.capitalize: first character upper-cased, the rest
lower-cased. -/
def pyCapitalize (s : PyStr) : PyStr :=
  match s with
  | [] => []
  | c :: cs => upperCode c :: cs.map lowerCode

/-- Decides whether the second list is an initial segment of the first
argument list order: leadsWith pat s means pat is a prefix of s. -/
def leadsWith : PyStr → PyStr → Bool
  | [], _ => true
  | _ :: _, [] => false
  | a :: as, b :: bs => if a = b then leadsWith as bs else false

/-- Models the Python substring test pattern in s. -/
def containsSub (s pattern : PyStr) : Bool :=
  match s with
  | [] => pattern.isEmpty
  | _ :: rest => leadsWith pattern s || containsSub rest pattern

/-! ### Plot.py: road styles and the style resolver -/

/-- One entry of the ROAD_STYLES table: a line width and a color. -/
structure RoadStyle where
  width : ℚ
  color : String
deriving DecidableEq, Repr

/-- The ROAD_STYLES dictionary of Plot.py, in its insertion order (which
is the iteration order of a Python dict). -/
def ROAD_STYLES : List (PyStr × RoadStyle) :=
  [(pyStr "motorway", ⟨2.5, "#000000"⟩),
   (pyStr "trunk", ⟨2.5, "#000000"⟩),
   (pyStr "primary", ⟨1.5, "#222222"⟩),
   (pyStr "secondary", ⟨1.5, "#222222"⟩),
   (pyStr "tertiary", ⟨0.8, "#444444"⟩),
   (pyStr "default", ⟨0.3, "#888888"⟩)]

/-- The default entry of ROAD_STYLES, used by the fallback return of
get_road_style. -/
def defaultRoadStyle : RoadStyle := ⟨0.3, "#888888"⟩

/-- The loop of get_road_style: first table entry whose key occurs as a
substring of the (already lower-cased) classification string. -/
def findRoadStyle (highway_str : PyStr) : List (PyStr × RoadStyle) → Option RoadStyle
  | [] => none
  | (road_type, style) :: rest =>
      if containsSub highway_str road_type then some style
      else findRoadStyle highway_str rest

/-- Models Plot.get_road_style: lower-case the classification string,
return the first ROAD_STYLES entry whose key is contained in it, and fall
back to the default style. -/
def get_road_style (highway_type : PyStr) : ℚ × String :=
  match findRoadStyle (strLower highway_type) ROAD_STYLES with
  | some style => (style.width, style.color)
  | none => (defaultRoadStyle.width, defaultRoadStyle.color)

/-! ### Plot.py: feature fetching -/

/-- A geopandas GeoDataFrame, reduced to its observable content: a list
of feature rows.  The pandas empty test is rows.isEmpty. -/
structure GeoDataFrame where
  rows : List PyStr
deriving DecidableEq, Repr

/-- Models the pandas empty property. -/
def GeoDataFrame.empty (g : GeoDataFrame) : Bool := g.rows.isEmpty

/-- Outcomes of the external provider call ox.features_from_place:
either a collection, or one of the exception kinds it can raise. -/
inductive ProviderError where
  | insufficientResponse
  | transportFailure (msg : String)
  | parseFailure (msg : String)
deriving DecidableEq, Repr

/-- Models Plot.get_features: the try/except around the provider call.
The provider call itself is external; its outcome is the argument.  An
InsufficientResponseError is replaced by an empty GeoDataFrame, any other
exception propagates, and a returned collection is passed through. -/
def get_features (providerResult : Except ProviderError GeoDataFrame) :
    Except ProviderError GeoDataFrame :=
  match providerResult with
  | .ok features => .ok features
  | .error .insufficientResponse => .ok ⟨[]⟩
  | .error e => .error e

/-! ### Plot.py: feature configurations and the drawing model -/

/-- The size-or-width attribute of a RAILWAY_FEATURES entry: each entry
of the source dictionary has exactly one of the two keys, and
overlay_feature dispatches on which one is present. -/
inductive StyleAttr where
  | lineWidth (w : ℚ)
  | markerSize (s : ℚ)
deriving DecidableEq, Repr

/-- One entry of the RAILWAY_FEATURES table. -/
structure FeatureConfig where
  tags : List (String × String)
  color : String
  attr : StyleAttr
  zorder : ℤ
deriving DecidableEq, Repr

/-- The tram entry of the RAILWAY_FEATURES dictionary. -/
def tramConfig : FeatureConfig := ⟨[("railway", "tram")], "red", .lineWidth 1, 3⟩

/-- The rail entry of the RAILWAY_FEATURES dictionary. -/
def railConfig : FeatureConfig := ⟨[("railway", "rail")], "blue", .lineWidth 1, 5⟩

/-- The narrow_gauge entry of the RAILWAY_FEATURES dictionary. -/
def narrowGaugeConfig : FeatureConfig :=
  ⟨[("railway", "narrow_gauge")], "cyan", .lineWidth 1, 4⟩

/-- The signal entry of the RAILWAY_FEATURES dictionary (the top layer:
highest z-order, drawn only between the two exports). -/
def signalConfig : FeatureConfig := ⟨[("railway", "signal")], "green", .markerSize 4, 6⟩

/-- The RAILWAY_FEATURES dictionary of Plot.py, in insertion order. -/
def RAILWAY_FEATURES : List (String × FeatureConfig) :=
  [("tram", tramConfig),
   ("rail", railConfig),
   ("narrow_gauge", narrowGaugeConfig),
   ("signal", signalConfig)]

/-- One drawing operation accumulated on the matplotlib axes: the
geometry painted, its color, whether it is drawn in marker mode
(markersize) or line mode (linewidth), the width or size value, and the
z-order. -/
structure DrawOp where
  geom : List PyStr
  color : String
  usesMarkersize : Bool
  weight : ℚ
  zorder : ℤ
deriving DecidableEq, Repr

/-- Models Plot.overlay_feature: an empty collection returns the axes
unchanged; otherwise one plot call is recorded, in marker mode when the
configuration has a size key and in line mode when it has a width key. -/
def overlay_feature (features : GeoDataFrame) (ax : List DrawOp)
    (feature_config : FeatureConfig) : List DrawOp :=
  if features.empty then ax
  else
    match feature_config.attr with
    | .markerSize s =>
        ax ++ [⟨features.rows, feature_config.color, true, s, feature_config.zorder⟩]
    | .lineWidth w =>
        ax ++ [⟨features.rows, feature_config.color, false, w, feature_config.zorder⟩]

/-- Stable insertion of a draw operation by z-order: the operation goes
after every earlier operation of strictly smaller z-order and before the
first of greater-or-equal z-order that was recorded later. -/
def insertOp (op : DrawOp) : List DrawOp → List DrawOp
  | [] => [op]
  | x :: xs => if x.zorder < op.zorder then x :: insertOp op xs else op :: x :: xs

/-- Stable sort of the accumulated operations by ascending z-order: the
matplotlib stacking rule used at rasterization time. -/
def sortOps : List DrawOp → List DrawOp
  | [] => []
  | x :: xs => insertOp x (sortOps xs)

/-- A rendered raster, modeled as the sequence of marks painted on it in
paint order. -/
structure PILImage where
  marks : List DrawOp
deriving DecidableEq, Repr

/-- Models Plot.export_image: rasterize the current axes content; marks
are painted in ascending z-order, stably for equal z-orders. -/
def export_image (ax : List DrawOp) : PILImage := ⟨sortOps ax⟩

/-! ### Plot.py: main -/

/-- One edge of the road network graph, carrying the value of its
highway classification entry (already stringified). -/
structure Edge where
  highway : PyStr
deriving DecidableEq, Repr

/-- Models the external ox.plot_graph call: the base network is drawn
with the per-edge color and width sequences aligned by edge order, no
nodes, white background.  Each edge contributes one line-mode draw
operation; matplotlib line collections sit at z-order 1, below every
configured feature layer. -/
def ox_plot_graph (graph : List Edge) (edge_color : List String)
    (edge_linewidth : List ℚ) : List DrawOp :=
  (graph.zip (edge_color.zip edge_linewidth)).map
    (fun p => ⟨[p.1.highway], p.2.1, false, p.2.2, 1⟩)

/-- Dictionary lookup in a configuration table (Python table[name]),
returning none where Python would raise a KeyError. -/
def cfgOf (table : List (String × FeatureConfig)) (name : String) :
    Option FeatureConfig :=
  (table.find? (fun p => p.1 == name)).map Prod.snd

/-- Dictionary lookup in the fetched feature data. -/
def dataOf (railway_data : List (String × GeoDataFrame)) (name : String) :
    Option GeoDataFrame :=
  (railway_data.find? (fun p => p.1 == name)).map Prod.snd

/-- The first overlay loop of Plot.main: every fetched layer except the
one named signal is overlaid, iterating in dictionary order; the style
table is indexed by the layer name, a missing key being a KeyError. -/
def drawNonTopLayers (table : List (String × FeatureConfig)) :
    List (String × GeoDataFrame) → List DrawOp → Except String (List DrawOp)
  | [], ax => .ok ax
  | (feature_name, features) :: rest, ax =>
      if feature_name ≠ "signal" then
        match cfgOf table feature_name with
        | some cfg => drawNonTopLayers table rest (overlay_feature features ax cfg)
        | none => .error ("KeyError: " ++ feature_name)
      else drawNonTopLayers table rest ax

/-- Models Plot.main, parametrized by its externals: the style table
(RAILWAY_FEATURES in the source), the road network returned by
ox.graph_from_place, and the fetched feature collections (the results of
get_features per tag filter, on a run where fetching succeeded).  Builds
railway_data, resolves per-edge styles, draws the base network, overlays
every non-signal layer, exports snapshot A, overlays the signal layer
(its data and its table entry looked up by the literal key signal), and
exports snapshot B. -/
def main (table : List (String × FeatureConfig)) (graph : List Edge)
    (featuresFor : List (String × String) → GeoDataFrame) :
    Except String (PILImage × PILImage) :=
  let railway_data := table.map (fun p => (p.1, featuresFor p.2.tags))
  let widths := graph.map (fun e => (get_road_style e.highway).1)
  let colors := graph.map (fun e => (get_road_style e.highway).2)
  let ax := ox_plot_graph graph colors widths
  match drawNonTopLayers table railway_data ax with
  | .error e => .error e
  | .ok ax1 =>
      let map_without_signals := export_image ax1
      match dataOf railway_data "signal", cfgOf table "signal" with
      | some signal_features, some cfg =>
          .ok (map_without_signals,
               export_image (overlay_feature signal_features ax1 cfg))
      | _, _ => .error "KeyError: signal"

/-- The style table with the tram layer removed (for comparing an empty
layer with an absent one). -/
def RAILWAY_FEATURES_NO_TRAM : List (String × FeatureConfig) :=
  [("rail", railConfig),
   ("narrow_gauge", narrowGaugeConfig),
   ("signal", signalConfig)]

/-- The style table with the rail layer removed. -/
def RAILWAY_FEATURES_NO_RAIL : List (String × FeatureConfig) :=
  [("tram", tramConfig),
   ("narrow_gauge", narrowGaugeConfig),
   ("signal", signalConfig)]

/-- The style table with the narrow_gauge layer removed. -/
def RAILWAY_FEATURES_NO_NARROW_GAUGE : List (String × FeatureConfig) :=
  [("tram", tramConfig),
   ("rail", railConfig),
   ("signal", signalConfig)]

/-- The style table with the signal (top) layer removed. -/
def RAILWAY_FEATURES_NO_SIGNAL : List (String × FeatureConfig) :=
  [("tram", tramConfig),
   ("rail", railConfig),
   ("narrow_gauge", narrowGaugeConfig)]

/-- The draw operations of the base road network: one line-mode operation
per edge at z-order 1, with the width and color resolved from the edge
classification by get_road_style. -/
def baseOps (graph : List Edge) : List DrawOp :=
  graph.map (fun e =>
    ⟨[e.highway], (get_road_style e.highway).2, false, (get_road_style e.highway).1, 1⟩)

/-- The marks one layer contributes to the canvas: none when its
collection is empty, otherwise one operation in the mode selected by its
size-or-width attribute. -/
def layerOps (cfg : FeatureConfig) (g : GeoDataFrame) : List DrawOp :=
  if g.empty then []
  else
    match cfg.attr with
    | .markerSize s => [⟨g.rows, cfg.color, true, s, cfg.zorder⟩]
    | .lineWidth w => [⟨g.rows, cfg.color, false, w, cfg.zorder⟩]

/-! ### gui_plot.py: image sizing -/

/-- Python int() on a rational value: truncation toward zero. -/
def pyInt (q : ℚ) : ℤ := if 0 ≤ q then ⌊q⌋ else -⌊-q⌋

/-- Models gui_plot.calculate_image_size on an image of the given pixel
width and height.  Python raises ZeroDivisionError when the height is
zero (computing the ratio) and when the ratio is zero (dividing max_size
by it in the not-wider branch); otherwise the wider-than-tall branch
returns (int(max_size * ratio), max_size) and the other branch returns
(max_size, int(max_size / ratio)). -/
def calculate_image_size (width height : ℕ) (max_size : ℚ) :
    Except String (ℚ × ℚ) :=
  if height = 0 then .error "ZeroDivisionError"
  else
    let image_ratio : ℚ := (width : ℚ) / (height : ℚ)
    if 1 < image_ratio then .ok (((pyInt (max_size * image_ratio) : ℤ) : ℚ), max_size)
    else if image_ratio = 0 then .error "ZeroDivisionError"
    else .ok (max_size, ((pyInt (max_size / image_ratio) : ℤ) : ℚ))

/-! ### gui_plot.py: country disambiguation -/

/-- Observable user-interface events of get_country_name: opening one
country input dialog with its text, and one call to display_plots with
the combined place string. -/
inductive UIEvent where
  | promptCountry (text : PyStr)
  | displayPlots (place : PyStr)
deriving DecidableEq, Repr

/-- The initial disambiguation dialog text. -/
def initialCountryText (city : PyStr) (countries : List PyStr) : PyStr :=
  pyStr "Enter country name: Multiple countries " ++
    List.intercalate (pyStr ", ") countries ++
    pyStr " found for " ++ city ++ pyStr ". Please specify:"

/-- The dialog text shown again after an invalid entry. -/
def invalidCountryText (country : PyStr) (countries : List PyStr) : PyStr :=
  pyStr "Invalid country name: " ++ country ++
    pyStr ". Please try again. Options: " ++
    List.intercalate (pyStr ", ") countries

/-- The while loop of get_country_name, driven by the successive user
entries: each iteration opens the dialog; a capitalized entry found among
the candidates triggers display_plots and ends the loop, any other entry
updates the dialog text and loops.  An exhausted entry list leaves the
loop blocked waiting for input. -/
def country_loop (city : PyStr) (countries : List PyStr) (text : PyStr) :
    List PyStr → List UIEvent
  | [] => []
  | country :: rest =>
      UIEvent.promptCountry text ::
        (if pyCapitalize country ∈ countries then
          [UIEvent.displayPlots (city ++ pyStr ", " ++ pyCapitalize country)]
        else
          country_loop city countries (invalidCountryText country countries) rest)

/-- Models gui_plot.get_country_name, parametrized by the candidate list
returned by the external country_check call and by the successive user
entries.  With more than one candidate the disambiguation loop runs (the
initial loop test uses the empty starting value of country); with exactly
one candidate display_plots is called directly; with none the function
falls through and returns nothing. -/
def get_country_name (city : PyStr) (countries : List PyStr)
    (inputs : List PyStr) : List UIEvent :=
  if 1 < countries.length then
    if pyCapitalize [] ∈ countries then []
    else country_loop city countries (initialCountryText city countries) inputs
  else
    match countries with
    | [c] => [UIEvent.displayPlots (city ++ pyStr ", " ++ c)]
    | _ => []

/-! ### Concrete sample inputs used to instantiate the theorems -/

/-- A provider that returns one feature row for every tag filter. -/
def demoFeatures : List (String × String) → GeoDataFrame := fun _ => ⟨[pyStr "geom"]⟩

/-- A provider that returns an empty collection for every tag filter. -/
def emptyFeatures : List (String × String) → GeoDataFrame := fun _ => ⟨[]⟩

/-- Snapshot A of a run of main on an empty road network with
demoFeatures: tram, narrow_gauge and rail marks in ascending z-order. -/
def demoSnapshotA : PILImage :=
  ⟨[⟨[pyStr "geom"], "red", false, 1, 3⟩,
    ⟨[pyStr "geom"], "cyan", false, 1, 4⟩,
    ⟨[pyStr "geom"], "blue", false, 1, 5⟩]⟩

/-- Snapshot B of the same run: snapshot A plus the signal marker. -/
def demoSnapshotB : PILImage :=
  ⟨[⟨[pyStr "geom"], "red", false, 1, 3⟩,
    ⟨[pyStr "geom"], "cyan", false, 1, 4⟩,
    ⟨[pyStr "geom"], "blue", false, 1, 5⟩,
    ⟨[pyStr "geom"], "green", true, 4, 6⟩]⟩

/-! ### Helper lemmas: case conversion -/

theorem lowerCode_upperCode (n : Nat) : lowerCode (upperCode n) = lowerCode n := by
  unfold lowerCode upperCode
  split_ifs <;> omega

theorem lowerCode_lowerCode (n : Nat) : lowerCode (lowerCode n) = lowerCode n := by
  unfold lowerCode
  split_ifs <;> omega

theorem strLower_pyCapitalize (s : PyStr) : strLower (pyCapitalize s) = strLower s := by
  cases s with
  | nil => rfl
  | cons c cs =>
      simp only [pyCapitalize, strLower, List.map_cons, List.map_map,
        lowerCode_upperCode, List.cons.injEq, true_and]
      exact List.map_congr_left (fun n _ => lowerCode_lowerCode n)

/-! ### Helper lemmas: the canvas and its rasterization order -/

theorem overlay_feature_eq (g : GeoDataFrame) (ax : List DrawOp) (cfg : FeatureConfig) :
    overlay_feature g ax cfg = ax ++ layerOps cfg g := by
  unfold overlay_feature layerOps
  by_cases h : g.empty
  · simp [h]
  · cases hattr : cfg.attr <;> simp [h, hattr]

theorem mem_layerOps_zorder (cfg : FeatureConfig) (g : GeoDataFrame) (x : DrawOp)
    (hx : x ∈ layerOps cfg g) : x.zorder = cfg.zorder := by
  unfold layerOps at hx
  by_cases h : g.empty
  · simp [h] at hx
  · cases hattr : cfg.attr with
    | lineWidth w =>
        simp [h, hattr] at hx
        subst hx
        rfl
    | markerSize s =>
        simp [h, hattr] at hx
        subst hx
        rfl

theorem mem_insertOp (y op : DrawOp) (l : List DrawOp) :
    y ∈ insertOp op l ↔ y = op ∨ y ∈ l := by
  induction l with
  | nil => simp [insertOp]
  | cons x xs ih =>
      by_cases hx : x.zorder < op.zorder
      · simp only [insertOp, if_pos hx, List.mem_cons, ih]
        tauto
      · simp only [insertOp, if_neg hx, List.mem_cons]

theorem mem_sortOps (y : DrawOp) (l : List DrawOp) : y ∈ sortOps l ↔ y ∈ l := by
  induction l with
  | nil => simp [sortOps]
  | cons x xs ih => simp [sortOps, mem_insertOp, ih]

theorem pairwise_insertOp (op : DrawOp) (l : List DrawOp)
    (h : l.Pairwise (fun a b => a.zorder ≤ b.zorder)) :
    (insertOp op l).Pairwise (fun a b => a.zorder ≤ b.zorder) := by
  induction l with
  | nil => simp [insertOp]
  | cons x xs ih =>
      rcases List.pairwise_cons.mp h with ⟨hx, hxs⟩
      by_cases hlt : x.zorder < op.zorder
      · simp only [insertOp, if_pos hlt]
        refine List.pairwise_cons.mpr ⟨?_, ih hxs⟩
        intro y hy
        rcases (mem_insertOp y op xs).mp hy with rfl | hy'
        · exact le_of_lt hlt
        · exact hx y hy'
      · simp only [insertOp, if_neg hlt]
        refine List.pairwise_cons.mpr ⟨?_, h⟩
        intro y hy
        rcases List.mem_cons.mp hy with rfl | hy'
        · exact le_of_not_lt hlt
        · exact le_trans (le_of_not_lt hlt) (hx y hy')

theorem sortOps_pairwise (l : List DrawOp) :
    (sortOps l).Pairwise (fun a b => a.zorder ≤ b.zorder) := by
  induction l with
  | nil => simp [sortOps]
  | cons x xs ih => exact pairwise_insertOp x (sortOps xs) ih

theorem sortOps_append_low (base feats : List DrawOp)
    (hb : ∀ b ∈ base, b.zorder = 1) (hf : ∀ f ∈ feats, 1 ≤ f.zorder) :
    sortOps (base ++ feats) = base ++ sortOps feats := by
  induction base with
  | nil => simp
  | cons b bs ih =>
      have hb1 : b.zorder = 1 := hb b (by simp)
      have ih' := ih (fun x hx => hb x (by simp [hx]))
      simp only [List.cons_append, sortOps, List.append_eq, ih']
      cases hcase : bs ++ sortOps feats with
      | nil => simp [insertOp, hcase]
      | cons y ys =>
          have hy : y ∈ bs ++ sortOps feats := by rw [hcase]; simp
          have hnot : ¬ y.zorder < b.zorder := by
            rcases List.mem_append.mp hy with h | h
            · have := hb y (by simp [h])
              omega
            · have := hf y ((mem_sortOps y feats).mp h)
              omega
          simp [insertOp, hnot]

theorem insertOp_append_high (x op : DrawOp) (s : List DrawOp)
    (h : x.zorder < op.zorder) :
    insertOp x (s ++ [op]) = insertOp x s ++ [op] := by
  induction s with
  | nil => simp [insertOp, lt_asymm h]
  | cons y ys ih =>
      by_cases hy : y.zorder < x.zorder
      · simp [insertOp, hy, ih]
      · simp [insertOp, hy]

theorem sortOps_append_high (l : List DrawOp) (op : DrawOp)
    (h : ∀ x ∈ l, x.zorder < op.zorder) :
    sortOps (l ++ [op]) = sortOps l ++ [op] := by
  induction l with
  | nil => simp [sortOps, insertOp]
  | cons x xs ih =>
      simp only [List.cons_append, sortOps, List.append_eq]
      rw [ih (fun y hy => h y (by simp [hy]))]
      exact insertOp_append_high x op (sortOps xs) (h x (by simp))

theorem ox_plot_graph_eq (graph : List Edge) :
    ox_plot_graph graph (graph.map (fun e => (get_road_style e.highway).2))
      (graph.map (fun e => (get_road_style e.highway).1)) = baseOps graph := by
  induction graph with
  | nil => rfl
  | cons e es ih =>
      simp only [ox_plot_graph, List.map_cons, List.zip_cons_cons, baseOps] at *
      simp [ih]

theorem mem_baseOps_zorder (graph : List Edge) (b : DrawOp)
    (hb : b ∈ baseOps graph) : b.zorder = 1 := by
  simp only [baseOps, List.mem_map] at hb
  obtain ⟨e, _, rfl⟩ := hb
  rfl

theorem drawNonTop_RAILWAY (ffor : List (String × String) → GeoDataFrame)
    (ax : List DrawOp) :
    drawNonTopLayers RAILWAY_FEATURES
      (RAILWAY_FEATURES.map (fun p => (p.1, ffor p.2.tags))) ax =
    .ok (ax ++ layerOps tramConfig (ffor tramConfig.tags)
          ++ layerOps railConfig (ffor railConfig.tags)
          ++ layerOps narrowGaugeConfig (ffor narrowGaugeConfig.tags)) := by
  simp [RAILWAY_FEATURES, drawNonTopLayers, cfgOf, overlay_feature_eq,
    List.append_assoc]

theorem sortOps_nonTop (base : List DrawOp) (hb : ∀ b ∈ base, b.zorder = 1)
    (gT gR gN : GeoDataFrame) :
    sortOps (base ++ (layerOps tramConfig gT ++ (layerOps railConfig gR
        ++ layerOps narrowGaugeConfig gN))) =
    base ++ (layerOps tramConfig gT ++ (layerOps narrowGaugeConfig gN
        ++ layerOps railConfig gR)) := by
  have hf : ∀ f ∈ layerOps tramConfig gT ++ (layerOps railConfig gR
      ++ layerOps narrowGaugeConfig gN), 1 ≤ f.zorder := by
    intro f hf
    rcases List.mem_append.mp hf with h | h
    · rw [mem_layerOps_zorder _ _ _ h]; decide
    · rcases List.mem_append.mp h with h' | h' <;>
        rw [mem_layerOps_zorder _ _ _ h'] <;> decide
  rw [sortOps_append_low base _ hb hf]
  congr 1
  by_cases hT : gT.empty <;> by_cases hR : gR.empty <;> by_cases hN : gN.empty <;>
    simp [layerOps, hT, hR, hN, tramConfig, railConfig, narrowGaugeConfig,
      sortOps, insertOp]

theorem sortOps_withTop (base : List DrawOp) (hb : ∀ b ∈ base, b.zorder = 1)
    (gT gR gN gS : GeoDataFrame) :
    sortOps (base ++ (layerOps tramConfig gT ++ (layerOps railConfig gR
        ++ (layerOps narrowGaugeConfig gN ++ layerOps signalConfig gS)))) =
    base ++ (layerOps tramConfig gT ++ (layerOps narrowGaugeConfig gN
        ++ (layerOps railConfig gR ++ layerOps signalConfig gS))) := by
  by_cases hS : gS.empty
  · have hnil : layerOps signalConfig gS = [] := by simp [layerOps, hS]
    rw [hnil, List.append_nil, List.append_nil]
    exact sortOps_nonTop base hb gT gR gN
  · have hS' : layerOps signalConfig gS = [⟨gS.rows, "green", true, 4, 6⟩] := by
      simp [layerOps, hS, signalConfig]
    have hlt : ∀ x ∈ base ++ (layerOps tramConfig gT ++ (layerOps railConfig gR
        ++ layerOps narrowGaugeConfig gN)),
        x.zorder < (6 : ℤ) := by
      intro x hx
      rcases List.mem_append.mp hx with h | h
      · have := hb x h
        simp only [this]
        decide
      · rcases List.mem_append.mp h with h' | h'
        · rw [mem_layerOps_zorder _ _ _ h']; decide
        · rcases List.mem_append.mp h' with h'' | h'' <;>
            rw [mem_layerOps_zorder _ _ _ h''] <;> decide
    have hshape : base ++ (layerOps tramConfig gT ++ (layerOps railConfig gR
        ++ (layerOps narrowGaugeConfig gN ++ [(⟨gS.rows, "green", true, 4, 6⟩ : DrawOp)]))) =
        (base ++ (layerOps tramConfig gT ++ (layerOps railConfig gR
          ++ layerOps narrowGaugeConfig gN))) ++ [(⟨gS.rows, "green", true, 4, 6⟩ : DrawOp)] := by
      simp [List.append_assoc]
    rw [hS', hshape, sortOps_append_high _ _ hlt, sortOps_nonTop base hb gT gR gN]
    simp [List.append_assoc]

theorem main_RAILWAY_eval (graph : List Edge)
    (ffor : List (String × String) → GeoDataFrame) :
    main RAILWAY_FEATURES graph ffor =
      .ok (⟨baseOps graph ++ layerOps tramConfig (ffor tramConfig.tags)
              ++ layerOps narrowGaugeConfig (ffor narrowGaugeConfig.tags)
              ++ layerOps railConfig (ffor railConfig.tags)⟩,
           ⟨baseOps graph ++ layerOps tramConfig (ffor tramConfig.tags)
              ++ layerOps narrowGaugeConfig (ffor narrowGaugeConfig.tags)
              ++ layerOps railConfig (ffor railConfig.tags)
              ++ layerOps signalConfig (ffor signalConfig.tags)⟩) := by
  have hb := mem_baseOps_zorder graph
  have e1 : ("tram" == "signal") = false := by decide
  have e2 : ("rail" == "signal") = false := by decide
  have e3 : ("narrow_gauge" == "signal") = false := by decide
  have e4 : ("signal" == "signal") = true := by decide
  simp only [main, ox_plot_graph_eq, drawNonTop_RAILWAY]
  simp only [RAILWAY_FEATURES, List.map_cons, List.map_nil, dataOf, cfgOf,
    List.find?, export_image, overlay_feature_eq, e1, e2, e3, e4,
    Option.map_some, List.append_assoc]
  norm_num [sortOps_nonTop (baseOps graph) hb, sortOps_withTop (baseOps graph) hb]

/-! ### C4: the two snapshots -/

/-- C4: on every successful run, the marks of snapshot B are exactly the
marks of snapshot A followed by the marks of the top (signal) layer, and
main returns the pair in the order (without top layer, with top layer):
snapshot A is exported after the base network and the non-top layers, and
the same canvas then receives only the signal layer before snapshot B. -/
theorem main_snapshotB_extends_snapshotA (graph : List Edge)
    (ffor : List (String × String) → GeoDataFrame) (A B : PILImage)
    (h : main RAILWAY_FEATURES graph ffor = .ok (A, B)) :
    B.marks = A.marks ++ layerOps signalConfig (ffor signalConfig.tags) := by
  rw [main_RAILWAY_eval graph ffor] at h
  injection h with h'
  rw [Prod.mk.injEq] at h'
  obtain ⟨hA, hB⟩ := h'
  subst hA
  subst hB
  rfl

theorem main_snapshotB_extends_snapshotA_witness :
    demoSnapshotB.marks =
      demoSnapshotA.marks ++ layerOps signalConfig (demoFeatures signalConfig.tags) :=
  main_snapshotB_extends_snapshotA [] demoFeatures demoSnapshotA demoSnapshotB rfl

/-! ### C5: snapshot A and the non-top layers -/

/-- C5: on every successful run, snapshot A consists of the base network
followed by the marks of every configured layer except the top (signal)
layer, painted in ascending z-order — tram (3) first, then narrow_gauge
(4), then rail (5) — the z-orders along snapshot A are monotone, and no
mark of the signal layer (z-order 6) is present in snapshot A. -/
theorem main_snapshotA_layers_ascending (graph : List Edge)
    (ffor : List (String × String) → GeoDataFrame) (A B : PILImage)
    (h : main RAILWAY_FEATURES graph ffor = .ok (A, B)) :
    A.marks = baseOps graph ++ layerOps tramConfig (ffor tramConfig.tags)
      ++ layerOps narrowGaugeConfig (ffor narrowGaugeConfig.tags)
      ++ layerOps railConfig (ffor railConfig.tags) ∧
    A.marks.Pairwise (fun a b => a.zorder ≤ b.zorder) ∧
    (∀ m ∈ A.marks, m.zorder ≠ signalConfig.zorder) := by
  have hb := mem_baseOps_zorder graph
  rw [main_RAILWAY_eval graph ffor] at h
  injection h with h'
  rw [Prod.mk.injEq] at h'
  obtain ⟨hA, hB⟩ := h'
  subst hA
  refine ⟨rfl, ?_, ?_⟩
  · show (baseOps graph ++ layerOps tramConfig (ffor tramConfig.tags)
      ++ layerOps narrowGaugeConfig (ffor narrowGaugeConfig.tags)
      ++ layerOps railConfig (ffor railConfig.tags)).Pairwise
        (fun a b => a.zorder ≤ b.zorder)
    have hs := sortOps_nonTop (baseOps graph) hb (ffor tramConfig.tags)
      (ffor railConfig.tags) (ffor narrowGaugeConfig.tags)
    have heq : baseOps graph ++ layerOps tramConfig (ffor tramConfig.tags)
        ++ layerOps narrowGaugeConfig (ffor narrowGaugeConfig.tags)
        ++ layerOps railConfig (ffor railConfig.tags) =
        baseOps graph ++ (layerOps tramConfig (ffor tramConfig.tags)
          ++ (layerOps narrowGaugeConfig (ffor narrowGaugeConfig.tags)
            ++ layerOps railConfig (ffor railConfig.tags))) := by
      simp [List.append_assoc]
    rw [heq, ← hs]
    exact sortOps_pairwise _
  · intro m hm
    rcases List.mem_append.mp hm with h1 | h1
    · rcases List.mem_append.mp h1 with h2 | h2
      · rcases List.mem_append.mp h2 with h3 | h3
        · rw [hb m h3]; decide
        · rw [mem_layerOps_zorder _ _ _ h3]; decide
      · rw [mem_layerOps_zorder _ _ _ h2]; decide
    · rw [mem_layerOps_zorder _ _ _ h1]; decide

theorem main_snapshotA_layers_ascending_witness :
    demoSnapshotA.marks = baseOps [] ++ layerOps tramConfig (demoFeatures tramConfig.tags)
      ++ layerOps narrowGaugeConfig (demoFeatures narrowGaugeConfig.tags)
      ++ layerOps railConfig (demoFeatures railConfig.tags) ∧
    demoSnapshotA.marks.Pairwise (fun a b => a.zorder ≤ b.zorder) ∧
    (∀ m ∈ demoSnapshotA.marks, m.zorder ≠ signalConfig.zorder) :=
  main_snapshotA_layers_ascending [] demoFeatures demoSnapshotA demoSnapshotB rfl

/-! ### C6: empty layers versus absent layers -/

theorem layerOps_emptyGDF (cfg : FeatureConfig) : layerOps cfg ⟨[]⟩ = [] := by
  simp [layerOps, GeoDataFrame.empty]

theorem drawNonTop_NO_TRAM (ffor : List (String × String) → GeoDataFrame)
    (ax : List DrawOp) :
    drawNonTopLayers RAILWAY_FEATURES_NO_TRAM
      (RAILWAY_FEATURES_NO_TRAM.map (fun p => (p.1, ffor p.2.tags))) ax =
    .ok (ax ++ layerOps railConfig (ffor railConfig.tags)
          ++ layerOps narrowGaugeConfig (ffor narrowGaugeConfig.tags)) := by
  simp [RAILWAY_FEATURES_NO_TRAM, drawNonTopLayers, cfgOf, overlay_feature_eq,
    List.append_assoc]

theorem drawNonTop_NO_RAIL (ffor : List (String × String) → GeoDataFrame)
    (ax : List DrawOp) :
    drawNonTopLayers RAILWAY_FEATURES_NO_RAIL
      (RAILWAY_FEATURES_NO_RAIL.map (fun p => (p.1, ffor p.2.tags))) ax =
    .ok (ax ++ layerOps tramConfig (ffor tramConfig.tags)
          ++ layerOps narrowGaugeConfig (ffor narrowGaugeConfig.tags)) := by
  simp [RAILWAY_FEATURES_NO_RAIL, drawNonTopLayers, cfgOf, overlay_feature_eq,
    List.append_assoc]

theorem drawNonTop_NO_NARROW (ffor : List (String × String) → GeoDataFrame)
    (ax : List DrawOp) :
    drawNonTopLayers RAILWAY_FEATURES_NO_NARROW_GAUGE
      (RAILWAY_FEATURES_NO_NARROW_GAUGE.map (fun p => (p.1, ffor p.2.tags))) ax =
    .ok (ax ++ layerOps tramConfig (ffor tramConfig.tags)
          ++ layerOps railConfig (ffor railConfig.tags)) := by
  simp [RAILWAY_FEATURES_NO_NARROW_GAUGE, drawNonTopLayers, cfgOf, overlay_feature_eq,
    List.append_assoc]

theorem main_NO_TRAM_eval (graph : List Edge)
    (ffor : List (String × String) → GeoDataFrame) :
    main RAILWAY_FEATURES_NO_TRAM graph ffor =
      .ok (⟨baseOps graph ++ layerOps narrowGaugeConfig (ffor narrowGaugeConfig.tags)
              ++ layerOps railConfig (ffor railConfig.tags)⟩,
           ⟨baseOps graph ++ layerOps narrowGaugeConfig (ffor narrowGaugeConfig.tags)
              ++ layerOps railConfig (ffor railConfig.tags)
              ++ layerOps signalConfig (ffor signalConfig.tags)⟩) := by
  have hb := mem_baseOps_zorder graph
  have e2 : ("rail" == "signal") = false := by decide
  have e3 : ("narrow_gauge" == "signal") = false := by decide
  have e4 : ("signal" == "signal") = true := by decide
  have hsortA := sortOps_nonTop (baseOps graph) hb ⟨[]⟩
    (ffor railConfig.tags) (ffor narrowGaugeConfig.tags)
  have hsortB := sortOps_withTop (baseOps graph) hb ⟨[]⟩
    (ffor railConfig.tags) (ffor narrowGaugeConfig.tags) (ffor signalConfig.tags)
  simp only [layerOps_emptyGDF, List.nil_append, List.append_nil] at hsortA hsortB
  simp only [main, ox_plot_graph_eq, drawNonTop_NO_TRAM]
  simp only [RAILWAY_FEATURES_NO_TRAM, cfgOf, dataOf,
    List.map_cons, List.map_nil, List.find?, export_image, overlay_feature_eq,
    e2, e3, e4, Option.map_some, List.append_assoc]
  norm_num [hsortA, hsortB]

theorem main_NO_RAIL_eval (graph : List Edge)
    (ffor : List (String × String) → GeoDataFrame) :
    main RAILWAY_FEATURES_NO_RAIL graph ffor =
      .ok (⟨baseOps graph ++ layerOps tramConfig (ffor tramConfig.tags)
              ++ layerOps narrowGaugeConfig (ffor narrowGaugeConfig.tags)⟩,
           ⟨baseOps graph ++ layerOps tramConfig (ffor tramConfig.tags)
              ++ layerOps narrowGaugeConfig (ffor narrowGaugeConfig.tags)
              ++ layerOps signalConfig (ffor signalConfig.tags)⟩) := by
  have hb := mem_baseOps_zorder graph
  have e1 : ("tram" == "signal") = false := by decide
  have e3 : ("narrow_gauge" == "signal") = false := by decide
  have e4 : ("signal" == "signal") = true := by decide
  have hsortA := sortOps_nonTop (baseOps graph) hb (ffor tramConfig.tags)
    ⟨[]⟩ (ffor narrowGaugeConfig.tags)
  have hsortB := sortOps_withTop (baseOps graph) hb (ffor tramConfig.tags)
    ⟨[]⟩ (ffor narrowGaugeConfig.tags) (ffor signalConfig.tags)
  simp only [layerOps_emptyGDF, List.nil_append, List.append_nil] at hsortA hsortB
  simp only [main, ox_plot_graph_eq, drawNonTop_NO_RAIL]
  simp only [RAILWAY_FEATURES_NO_RAIL, cfgOf, dataOf,
    List.map_cons, List.map_nil, List.find?, export_image, overlay_feature_eq,
    e1, e3, e4, Option.map_some, List.append_assoc]
  norm_num [hsortA, hsortB]

theorem main_NO_NARROW_eval (graph : List Edge)
    (ffor : List (String × String) → GeoDataFrame) :
    main RAILWAY_FEATURES_NO_NARROW_GAUGE graph ffor =
      .ok (⟨baseOps graph ++ layerOps tramConfig (ffor tramConfig.tags)
              ++ layerOps railConfig (ffor railConfig.tags)⟩,
           ⟨baseOps graph ++ layerOps tramConfig (ffor tramConfig.tags)
              ++ layerOps railConfig (ffor railConfig.tags)
              ++ layerOps signalConfig (ffor signalConfig.tags)⟩) := by
  have hb := mem_baseOps_zorder graph
  have e1 : ("tram" == "signal") = false := by decide
  have e2 : ("rail" == "signal") = false := by decide
  have e4 : ("signal" == "signal") = true := by decide
  have hsortA := sortOps_nonTop (baseOps graph) hb (ffor tramConfig.tags)
    (ffor railConfig.tags) ⟨[]⟩
  have hsortB := sortOps_withTop (baseOps graph) hb (ffor tramConfig.tags)
    (ffor railConfig.tags) ⟨[]⟩ (ffor signalConfig.tags)
  simp only [layerOps_emptyGDF, List.nil_append, List.append_nil] at hsortA hsortB
  simp only [main, ox_plot_graph_eq, drawNonTop_NO_NARROW]
  simp only [RAILWAY_FEATURES_NO_NARROW_GAUGE, cfgOf, dataOf,
    List.map_cons, List.map_nil, List.find?, export_image, overlay_feature_eq,
    e1, e2, e4, Option.map_some, List.append_assoc]
  norm_num [hsortA, hsortB]

/-- C6 counterexample: the claim fails for the top (signal) layer.  With
every collection empty, a run with the full style table succeeds and
produces two empty snapshots, but a run with the signal layer removed
from the style table does not produce the same snapshots: it aborts with
a KeyError, because main indexes the style table by the literal key
signal after the first export. -/
theorem empty_layer_vs_absent_layer_cx :
    (GeoDataFrame.mk []).empty = true ∧
    main RAILWAY_FEATURES [] emptyFeatures =
      .ok (⟨[]⟩, ⟨[]⟩) ∧
    main RAILWAY_FEATURES_NO_SIGNAL [] emptyFeatures =
      .error "KeyError: signal" :=
  ⟨rfl, rfl, rfl⟩

/-- C6 corrected: overlaying an empty collection is a no-op that leaves
the canvas unchanged and raises nothing, and for every layer except the
top (signal) one, a run in which that layer fetches an empty collection
produces exactly the result of a run with the layer absent from the
style table.  For the top layer this fails: removing it from the style
table aborts main with a KeyError (see the counterexample). -/
theorem empty_layer_noop_and_nontop_omitted :
    (∀ (g : GeoDataFrame) (ax : List DrawOp) (cfg : FeatureConfig),
      g.empty = true → overlay_feature g ax cfg = ax) ∧
    (∀ (graph : List Edge) (ffor : List (String × String) → GeoDataFrame),
      (ffor tramConfig.tags).empty = true →
      main RAILWAY_FEATURES graph ffor = main RAILWAY_FEATURES_NO_TRAM graph ffor) ∧
    (∀ (graph : List Edge) (ffor : List (String × String) → GeoDataFrame),
      (ffor railConfig.tags).empty = true →
      main RAILWAY_FEATURES graph ffor = main RAILWAY_FEATURES_NO_RAIL graph ffor) ∧
    (∀ (graph : List Edge) (ffor : List (String × String) → GeoDataFrame),
      (ffor narrowGaugeConfig.tags).empty = true →
      main RAILWAY_FEATURES graph ffor = main RAILWAY_FEATURES_NO_NARROW_GAUGE graph ffor) := by
  refine ⟨?_, ?_, ?_, ?_⟩
  · intro g ax cfg hg
    unfold overlay_feature
    simp [hg]
  · intro graph ffor hg
    rw [main_RAILWAY_eval, main_NO_TRAM_eval]
    simp [layerOps, hg]
  · intro graph ffor hg
    rw [main_RAILWAY_eval, main_NO_RAIL_eval]
    simp [layerOps, hg]
  · intro graph ffor hg
    rw [main_RAILWAY_eval, main_NO_NARROW_eval]
    simp [layerOps, hg]

theorem empty_layer_noop_and_nontop_omitted_witness :
    overlay_feature ⟨[]⟩ [] tramConfig = [] ∧
    main RAILWAY_FEATURES [] emptyFeatures =
      main RAILWAY_FEATURES_NO_TRAM [] emptyFeatures :=
  ⟨empty_layer_noop_and_nontop_omitted.1 ⟨[]⟩ [] tramConfig rfl,
   empty_layer_noop_and_nontop_omitted.2.1 [] emptyFeatures rfl⟩

/-! ### C1 and C2: the style resolver -/

/-- C1: every classification string whose lower-cased form contains the
substring motorway or the substring trunk resolves to the heaviest and
darkest style (2.5, #000000), whatever else the string contains, because
those two categories head the ordered table and share one style. -/
theorem road_style_motorway_trunk_heaviest (s : PyStr)
    (h : containsSub (strLower s) (pyStr "motorway") = true ∨
         containsSub (strLower s) (pyStr "trunk") = true) :
    get_road_style s = (2.5, "#000000") := by
  rcases h with h | h
  · simp [get_road_style, ROAD_STYLES, findRoadStyle, h]
  · by_cases hm : containsSub (strLower s) (pyStr "motorway") = true
    · simp [get_road_style, ROAD_STYLES, findRoadStyle, hm]
    · rw [Bool.not_eq_true] at hm
      simp [get_road_style, ROAD_STYLES, findRoadStyle, hm, h]

theorem road_style_motorway_trunk_heaviest_witness :
    get_road_style (pyStr "Trunk_link; primary") = (2.5, "#000000") :=
  road_style_motorway_trunk_heaviest (pyStr "Trunk_link; primary") (Or.inr (by decide))

/-- C2: get_road_style always returns a value (it is a total function of
this model), and on a classification string whose lower-cased form
contains none of the five road category names it returns exactly the
default style (0.3, #888888) — either through the table entry keyed
default or through the final fallback, which coincide. -/
theorem road_style_unknown_default (s : PyStr)
    (h : ∀ k ∈ [pyStr "motorway", pyStr "trunk", pyStr "primary",
                pyStr "secondary", pyStr "tertiary"],
         containsSub (strLower s) k = false) :
    get_road_style s = (0.3, "#888888") := by
  have h1 := h (pyStr "motorway") (by simp)
  have h2 := h (pyStr "trunk") (by simp)
  have h3 := h (pyStr "primary") (by simp)
  have h4 := h (pyStr "secondary") (by simp)
  have h5 := h (pyStr "tertiary") (by simp)
  by_cases hd : containsSub (strLower s) (pyStr "default") = true
  · simp [get_road_style, ROAD_STYLES, findRoadStyle, h1, h2, h3, h4, h5, hd]
  · rw [Bool.not_eq_true] at hd
    simp [get_road_style, ROAD_STYLES, findRoadStyle, h1, h2, h3, h4, h5, hd,
      defaultRoadStyle]

theorem road_style_unknown_default_witness :
    get_road_style (pyStr "residential") = (0.3, "#888888") :=
  road_style_unknown_default (pyStr "residential") (by decide)

/-! ### C3: feature fetching -/

/-- C3: get_features turns the insufficient-response outcome of the
provider call into an empty collection, propagates every other provider
exception unchanged, passes a successful collection through as-is, and —
as long as the provider never returns an empty collection on success,
which is the provider contract — returns an empty collection exactly on
the insufficient-response outcome. -/
theorem get_features_insufficient_to_empty
    (r : Except ProviderError GeoDataFrame) :
    (r = .error .insufficientResponse → get_features r = .ok ⟨[]⟩) ∧
    (∀ e, e ≠ ProviderError.insufficientResponse → r = .error e →
      get_features r = .error e) ∧
    (∀ f, r = .ok f → get_features r = .ok f) ∧
    ((∀ f, r = .ok f → f.empty = false) →
      (get_features r = .ok ⟨[]⟩ ↔ r = .error .insufficientResponse)) := by
  refine ⟨?_, ?_, ?_, ?_⟩
  · rintro rfl; rfl
  · rintro e he rfl
    cases e with
    | insufficientResponse => exact absurd rfl he
    | transportFailure msg => rfl
    | parseFailure msg => rfl
  · rintro f rfl; rfl
  · intro hne
    constructor
    · intro hok
      cases r with
      | ok f =>
          have hf := hne f rfl
          simp only [get_features, Except.ok.injEq] at hok
          subst hok
          simp [GeoDataFrame.empty] at hf
      | error e =>
          cases e with
          | insufficientResponse => rfl
          | transportFailure msg => simp [get_features] at hok
          | parseFailure msg => simp [get_features] at hok
    · rintro rfl; rfl

theorem get_features_insufficient_to_empty_witness :
    get_features (.error ProviderError.insufficientResponse) =
      .ok (⟨[]⟩ : GeoDataFrame) :=
  (get_features_insufficient_to_empty (.error ProviderError.insufficientResponse)).1 rfl

/-! ### C7 and C10: image sizing -/

theorem calculate_image_size_pos_eval (w h : ℕ) (M : ℚ) (hw : 0 < w) (hh : 0 < h) :
    calculate_image_size w h M =
      if h < w then .ok (((pyInt (M * w / h) : ℤ) : ℚ), M)
      else .ok (M, ((pyInt (M * h / w) : ℤ) : ℚ)) := by
  have hh0 : (0 : ℚ) < (h : ℚ) := by exact_mod_cast hh
  have hw0 : (0 : ℚ) < (w : ℚ) := by exact_mod_cast hw
  unfold calculate_image_size
  rw [if_neg (by omega : ¬ h = 0)]
  by_cases hlt : h < w
  · have h1 : 1 < (w : ℚ) / (h : ℚ) := by
      rw [lt_div_iff₀ hh0, one_mul]
      exact_mod_cast hlt
    rw [if_pos h1, if_pos hlt, mul_div_assoc]
  · have h1 : ¬ (1 < (w : ℚ) / (h : ℚ)) := by
      rw [not_lt, div_le_one hh0]
      exact_mod_cast not_lt.mp hlt
    have h2 : (w : ℚ) / (h : ℚ) ≠ 0 := ne_of_gt (div_pos hw0 hh0)
    rw [if_neg h1, if_neg h2, if_neg hlt, div_div_eq_mul_div]

/-- C7: for an image of positive pixel size, calculate_image_size caps
the height at the maximum and scales the width up when the image is wider
than tall, and otherwise caps the width and scales the height up, always
preserving the aspect ratio and truncating with int(); in particular a
2:1 image at maximum 100 maps to (200, 100), a 1:2 image to (100, 200),
and a square image to (100, 100). -/
theorem calculate_image_size_aspect :
    (∀ (w h : ℕ) (M : ℚ), 0 < w → 0 < h →
      calculate_image_size w h M =
        if h < w then .ok (((pyInt (M * w / h) : ℤ) : ℚ), M)
        else .ok (M, ((pyInt (M * h / w) : ℤ) : ℚ))) ∧
    calculate_image_size 2 1 100 = .ok (200, 100) ∧
    calculate_image_size 1 2 100 = .ok (100, 200) ∧
    calculate_image_size 1 1 100 = .ok (100, 100) := by
  refine ⟨fun w h M hw hh => calculate_image_size_pos_eval w h M hw hh, ?_, ?_, ?_⟩
  · rw [calculate_image_size_pos_eval 2 1 100 (by norm_num) (by norm_num)]
    rw [if_pos (by norm_num)]
    have harg : (100 : ℚ) * (2 : ℕ) / (1 : ℕ) = ((200 : ℤ) : ℚ) := by norm_num
    rw [harg]
    norm_num [pyInt, Int.floor_intCast]
  · rw [calculate_image_size_pos_eval 1 2 100 (by norm_num) (by norm_num)]
    rw [if_neg (by norm_num)]
    have harg : (100 : ℚ) * (2 : ℕ) / (1 : ℕ) = ((200 : ℤ) : ℚ) := by norm_num
    rw [harg]
    norm_num [pyInt, Int.floor_intCast]
  · rw [calculate_image_size_pos_eval 1 1 100 (by norm_num) (by norm_num)]
    rw [if_neg (by norm_num)]
    have harg : (100 : ℚ) * (1 : ℕ) / (1 : ℕ) = ((100 : ℤ) : ℚ) := by norm_num
    rw [harg]
    norm_num [pyInt, Int.floor_intCast]

theorem calculate_image_size_aspect_witness :
    calculate_image_size 4 2 50 =
      (if (2 : ℕ) < 4 then .ok (((pyInt (50 * (4 : ℕ) / (2 : ℕ)) : ℤ) : ℚ), 50)
       else .ok (50, ((pyInt (50 * (2 : ℕ) / (4 : ℕ)) : ℤ) : ℚ))) :=
  calculate_image_size_aspect.1 4 2 50 (by norm_num) (by norm_num)

/-- C10: calculate_image_size is total only on images of positive width
and height: a zero height makes the aspect-ratio division raise
ZeroDivisionError, a zero width (with positive height) makes the ratio
zero and the not-wider branch divide the maximum size by zero, and both
dimensions positive always produce a size. -/
theorem calculate_image_size_zero_division :
    (∀ (w : ℕ) (M : ℚ), calculate_image_size w 0 M = .error "ZeroDivisionError") ∧
    (∀ (h : ℕ) (M : ℚ), 0 < h → calculate_image_size 0 h M = .error "ZeroDivisionError") ∧
    (∀ (w h : ℕ) (M : ℚ), 0 < w → 0 < h →
      ∃ p, calculate_image_size w h M = .ok p) := by
  refine ⟨?_, ?_, ?_⟩
  · intro w M
    rfl
  · intro h M hh
    have hh0 : (0 : ℚ) < (h : ℚ) := by exact_mod_cast hh
    unfold calculate_image_size
    rw [if_neg (by omega : ¬ h = 0)]
    have hz : ((0 : ℕ) : ℚ) / (h : ℚ) = 0 := by simp
    rw [hz, if_neg (by norm_num), if_pos rfl]
  · intro w h M hw hh
    rw [calculate_image_size_pos_eval w h M hw hh]
    by_cases hlt : h < w
    · exact ⟨_, by rw [if_pos hlt]⟩
    · exact ⟨_, by rw [if_neg hlt]⟩

theorem calculate_image_size_zero_division_witness :
    calculate_image_size 5 0 100 = .error "ZeroDivisionError" ∧
    calculate_image_size 0 3 100 = .error "ZeroDivisionError" ∧
    ∃ p, calculate_image_size 3 3 100 = .ok p :=
  ⟨calculate_image_size_zero_division.1 5 100,
   calculate_image_size_zero_division.2.1 3 100 (by norm_num),
   calculate_image_size_zero_division.2.2 3 3 100 (by norm_num) (by norm_num)⟩

/-! ### C8: country disambiguation -/

theorem country_loop_display (city : PyStr) (countries : List PyStr) :
    ∀ (inputs : List PyStr) (text place : PyStr),
      UIEvent.displayPlots place ∈ country_loop city countries text inputs →
      ∃ c, c ∈ countries ∧ place = city ++ pyStr ", " ++ c ∧
        ∃ i, i ∈ inputs ∧ pyCapitalize i = c := by
  intro inputs
  induction inputs with
  | nil =>
      intro text place hmem
      simp [country_loop] at hmem
  | cons i rest ih =>
      intro text place hmem
      simp only [country_loop] at hmem
      rcases List.mem_cons.mp hmem with h' | h'
      · exact absurd h' (by simp)
      · by_cases hc : pyCapitalize i ∈ countries
        · rw [if_pos hc] at h'
          simp only [List.mem_singleton, UIEvent.displayPlots.injEq] at h'
          exact ⟨pyCapitalize i, hc, h', i, by simp, rfl⟩
        · rw [if_neg hc] at h'
          obtain ⟨c, hc1, hc2, j, hj1, hj2⟩ := ih _ place h'
          exact ⟨c, hc1, hc2, j, by simp [hj1], hj2⟩

/-- C8: with several candidate countries, every display_plots call that
get_country_name can emit carries a place built from one of exactly the
listed candidates, reached only once the user has entered a string that
matches a candidate up to letter case; and an entry whose capitalized
form is not among the candidates produces exactly one more dialog and no
other event — the loop re-prompts with the invalid-entry text. -/
theorem get_country_name_disambiguation (city : PyStr) (countries : List PyStr)
    (inputs : List PyStr) (h : 1 < countries.length) :
    (∀ place, UIEvent.displayPlots place ∈ get_country_name city countries inputs →
      ∃ c, c ∈ countries ∧ place = city ++ pyStr ", " ++ c ∧
        ∃ i, i ∈ inputs ∧ strLower i = strLower c) ∧
    (∀ (text i : PyStr) (rest : List PyStr), pyCapitalize i ∉ countries →
      country_loop city countries text (i :: rest) =
        UIEvent.promptCountry text ::
          country_loop city countries (invalidCountryText i countries) rest) := by
  constructor
  · intro place hp
    unfold get_country_name at hp
    rw [if_pos h] at hp
    by_cases hemp : pyCapitalize [] ∈ countries
    · rw [if_pos hemp] at hp
      simp at hp
    · rw [if_neg hemp] at hp
      obtain ⟨c, hc, hplace, i, hi, hcap⟩ :=
        country_loop_display city countries inputs _ place hp
      exact ⟨c, hc, hplace, i, hi, by rw [← hcap, strLower_pyCapitalize]⟩
  · intro text i rest hni
    simp only [country_loop, if_neg hni]

theorem get_country_name_disambiguation_witness :
    (∀ place, UIEvent.displayPlots place ∈
        get_country_name (pyStr "Berlin") [pyStr "Germany", pyStr "Poland"]
          [pyStr "germany"] →
      ∃ c, c ∈ [pyStr "Germany", pyStr "Poland"] ∧
        place = pyStr "Berlin" ++ pyStr ", " ++ c ∧
        ∃ i, i ∈ [pyStr "germany"] ∧ strLower i = strLower c) ∧
    (∀ (text i : PyStr) (rest : List PyStr),
      pyCapitalize i ∉ [pyStr "Germany", pyStr "Poland"] →
      country_loop (pyStr "Berlin") [pyStr "Germany", pyStr "Poland"] text (i :: rest) =
        UIEvent.promptCountry text ::
          country_loop (pyStr "Berlin") [pyStr "Germany", pyStr "Poland"]
            (invalidCountryText i [pyStr "Germany", pyStr "Poland"]) rest) :=
  get_country_name_disambiguation (pyStr "Berlin") [pyStr "Germany", pyStr "Poland"]
    [pyStr "germany"] (by decide)

/-! ### C9: no candidate countries -/

/-- C9: when the country lookup yields no candidate at all, both branch
guards of get_country_name fail, so it returns with no dialog opened, no
display_plots call, and no exception — an empty event trace. -/
theorem get_country_name_no_candidates (city : PyStr) (inputs : List PyStr) :
    get_country_name city [] inputs = [] := by
  rfl

end CityPlotting
